import Mathlib

/-
Verification of the metric-computation engine: a shallow embedding of the
BusFactor calculator (github_data.ts / busFactor source), the
ResponsiveMaintainer calculator (src/metrics/responsiveMaintainer.ts),
and the score aggregation policy, together with proofs and refutations of
the documented properties.

JavaScript numbers are idealized as exact rationals extended with NaN and
the two infinities; machine rounding of IEEE doubles is abstracted away,
but the NaN/Infinity propagation rules of the source language are kept,
because the source code reaches 0/0 and out-of-bounds indexing on some
inputs and those behaviours decide several properties.
-/

set_option maxHeartbeats 1000000

/-- A JavaScript number: NaN, positive or negative infinity, or a finite
value idealized as an exact rational. -/
inductive JSNum where
  | nan : JSNum
  | posInf : JSNum
  | negInf : JSNum
  | val : ℚ → JSNum
deriving DecidableEq

namespace JSNum

/-- JavaScript addition on numbers: NaN absorbs, opposite infinities give
NaN, an infinity absorbs finite values, finite values add exactly. -/
def add : JSNum → JSNum → JSNum
  | nan, _ => nan
  | _, nan => nan
  | posInf, negInf => nan
  | negInf, posInf => nan
  | posInf, _ => posInf
  | _, posInf => posInf
  | negInf, _ => negInf
  | _, negInf => negInf
  | val a, val b => val (a + b)

/-- JavaScript unary negation. -/
def neg : JSNum → JSNum
  | nan => nan
  | posInf => negInf
  | negInf => posInf
  | val a => val (-a)

/-- JavaScript subtraction, which agrees with adding the negation. -/
def sub (x y : JSNum) : JSNum := x.add y.neg

/-- JavaScript multiplication: NaN absorbs, infinity times zero is NaN,
infinity times a nonzero value follows the sign rule. -/
def mul : JSNum → JSNum → JSNum
  | nan, _ => nan
  | _, nan => nan
  | posInf, posInf => posInf
  | posInf, negInf => negInf
  | negInf, posInf => negInf
  | negInf, negInf => posInf
  | posInf, val b => if b = 0 then nan else if 0 < b then posInf else negInf
  | val a, posInf => if a = 0 then nan else if 0 < a then posInf else negInf
  | negInf, val b => if b = 0 then nan else if 0 < b then negInf else posInf
  | val a, negInf => if a = 0 then nan else if 0 < a then negInf else posInf
  | val a, val b => val (a * b)

/-- JavaScript division: NaN absorbs, 0/0 is NaN, a nonzero finite value
divided by zero is a signed infinity, a finite value divided by an
infinity is zero, infinity over infinity is NaN.  The sign of zero is not
modelled (zero is treated as +0, the only form arising here). -/
def div : JSNum → JSNum → JSNum
  | nan, _ => nan
  | _, nan => nan
  | posInf, posInf => nan
  | posInf, negInf => nan
  | negInf, posInf => nan
  | negInf, negInf => nan
  | posInf, val b => if 0 ≤ b then posInf else negInf
  | negInf, val b => if 0 ≤ b then negInf else posInf
  | val _, posInf => val 0
  | val _, negInf => val 0
  | val a, val b =>
      if b = 0 then (if a = 0 then nan else if 0 < a then posInf else negInf)
      else val (a / b)

/-- The JavaScript strict-less-than comparison: any comparison with NaN is
false, infinities compare as extremes, finite values compare exactly. -/
def lt : JSNum → JSNum → Bool
  | nan, _ => false
  | _, nan => false
  | posInf, _ => false
  | _, posInf => true
  | negInf, negInf => false
  | negInf, _ => true
  | _, negInf => false
  | val a, val b => decide (a < b)

/-- JavaScript Math.round: round half toward positive infinity, that is
the floor of the value plus one half; NaN and infinities pass through. -/
def round : JSNum → JSNum
  | nan => nan
  | posInf => posInf
  | negInf => negInf
  | val a => val ((⌊a + 1/2⌋ : ℤ) : ℚ)

end JSNum

/-- One element of the contributors array returned by the GitHub API, as
consumed by getContributionCounts: either its contributions field holds a
JavaScript number (which may itself be NaN or infinite, since typeof
NaN and typeof Infinity are both number), or the field is missing or of a
non-number type. -/
inductive Contrib where
  | num : JSNum → Contrib
  | other : Contrib
deriving DecidableEq

/-- Embedding of getContributionCounts (github_data.ts): iterate over the
data array and push item.contributions whenever that field is a number,
skipping every other element; the counts appear in input order. -/
def getContributionCounts : List Contrib → List JSNum
  | [] => []
  | Contrib.num x :: rest => x :: getContributionCounts rest
  | Contrib.other :: rest => getContributionCounts rest

/-- JavaScript array indexing as used inside getBusFactor: an in-bounds
index yields the element, an out-of-bounds index yields undefined, which
behaves exactly as NaN in the addition and division contexts in which
getBusFactor uses it. -/
def jsIdx (l : List JSNum) (i : Nat) : JSNum := l.getD i JSNum.nan

/-- The first summation loop of getBusFactor: total_commits starts at 0
and accumulates commit_count[i] for i = 0 .. num_committers - 1 (indexing
past the end of commit_count when contributors were skipped, which turns
the total into NaN). -/
def totalCommits (counts : List JSNum) : Nat → JSNum
  | 0 => JSNum.val 0
  | k + 1 => (totalCommits counts k).add (jsIdx counts k)

/-- The 95 percent coverage threshold of getBusFactor. -/
def coverageThreshold : JSNum := JSNum.val (95/100)

/-- The accumulation while-loop of getBusFactor: while
current_percentage < threshold and i < num_committers, add
commit_count[i] / total_commits to the accumulator and increment i.  The
fuel argument is the number of remaining indices (num_committers - i), so
fuel zero means the bound i < num_committers fails. -/
def busLoopAux (counts : List JSNum) (total : JSNum) :
    Nat → JSNum → Nat → Nat
  | 0, _, i => i
  | fuel + 1, cur, i =>
      if JSNum.lt cur coverageThreshold then
        busLoopAux counts total fuel (cur.add ((jsIdx counts i).div total)) (i + 1)
      else i

/-- Embedding of getBusFactor (the BusFactor calculator source): take the
raw array length as num_committers, extract the numeric contribution
counts, sum commit_count[0..num_committers) into total_commits, run the
coverage loop to obtain the contributor count i needed (or until the
contributors run out), and return 1 - i / num_committers rounded to one
decimal place via Math.round(x * 10) / 10.  The source performs no sort
and no emptiness or zero-total guard. -/
def getBusFactor (data : List Contrib) : JSNum :=
  let num_committers := data.length
  let commit_count := getContributionCounts data
  let total_commits := totalCommits commit_count num_committers
  let i := busLoopAux commit_count total_commits num_committers (JSNum.val 0) 0
  let bus_factor := (JSNum.val 1).sub ((JSNum.val i).div (JSNum.val num_committers))
  ((bus_factor.mul (JSNum.val 10)).round).div (JSNum.val 10)

/-- Rounding of an exact rational to one decimal place in the way
getBusFactor does it: Math.round(q * 10) / 10. -/
def round1 (q : ℚ) : ℚ := ((⌊q * 10 + 1/2⌋ : ℤ) : ℚ) / 10

/-- Rounding of an exact rational to two decimal places in the way the
ResponsiveMaintainer calculator does it: parseFloat(x.toFixed(2)), which
for the nonnegative values arising here is Math-round-half-up at the
second decimal. -/
def toFixed2 (q : ℚ) : ℚ := ((⌊q * 100 + 1/2⌋ : ℤ) : ℚ) / 100

/-- One element of the GitHub issues list (state=all): closed_at is either
absent (null or missing, the open case) or a timestamp string. -/
structure Issue where
  closed_at : Option String
deriving DecidableEq

/-- The truthiness test the calculator applies to issue.closed_at: null
and a missing field are falsy, a string is truthy unless it is empty. -/
def closedAtTruthy (iss : Issue) : Bool :=
  match iss.closed_at with
  | none => false
  | some s => decide (s ≠ "")

/-- The counting loop of calculateResponsiveMaintainer: walk the issues
list once, incrementing the closed count when closed_at is truthy and the
open count otherwise; returns (openIssuesCount, closedIssuesCount). -/
def countIssues (issues : List Issue) : Nat × Nat :=
  issues.foldl
    (fun oc iss => if closedAtTruthy iss then (oc.1, oc.2 + 1) else (oc.1 + 1, oc.2))
    (0, 0)

/-- The repository metadata object as consumed by the calculator: only the
open_issues_count field matters; it is a count (a nonnegative integer per
the GitHub schema) or absent. -/
structure RepoData where
  open_issues_count : Option Nat
deriving DecidableEq

/-- The metadata override line of the calculator,
openIssuesCount = repoData.open_issues_count || openIssuesCount: the
metadata count is used when it is present and nonzero (zero and a missing
field are falsy), otherwise the locally derived open count stands. -/
def effectiveOpenCount (repoData : RepoData) (localOpen : Nat) : Nat :=
  match repoData.open_issues_count with
  | some k => if k = 0 then localOpen else k
  | none => localOpen

/-- The guarded open-to-closed quotient of the calculator:
openCount / closedCount when closedCount > 0, and 0 otherwise, so the
division is never evaluated with a zero divisor. -/
def rmQuotient (openCount closedCount : Nat) : ℚ :=
  if 0 < closedCount then (openCount : ℚ) / (closedCount : ℚ) else 0

/-- The score computation of calculateResponsiveMaintainer on fetched
data: count the issues, apply the metadata override to the open count,
form the guarded quotient, and return 1 / (1 + quotient) rounded to two
decimal places. -/
def rmScore (repoData : RepoData) (issues : List Issue) : ℚ :=
  let oc := countIssues issues
  let openCount := effectiveOpenCount repoData oc.1
  toFixed2 (1 / (1 + rmQuotient openCount oc.2))

/-- A transport failure of the data fetcher: a network error or a non-2xx
HTTP response.  fetchJsonFromApi logs such an error and rethrows it. -/
inductive TransportError where
  | networkFailure : TransportError
  | httpStatus : Nat → TransportError
deriving DecidableEq

/-- The record returned by calculateResponsiveMaintainer on success: the
score and the measured latency, both plain numbers (the return type has no
absent form). -/
structure RMResult where
  score : ℚ
  latency : ℚ
deriving DecidableEq

/-- Embedding of calculateResponsiveMaintainer over the outcomes of its
two fetches: the function awaits Promise.all of the repository fetch and
the issues fetch with no try/catch, so if either fetch rejects the
rejection propagates to the caller unchanged (modelled as Except.error);
only when both succeed does it build the score and the latency
parseFloat((t1 - t0).toFixed(2)) from the two timer readings. -/
def calculateResponsiveMaintainer (repoFetch : Except TransportError RepoData)
    (issuesFetch : Except TransportError (List Issue))
    (t0 t1 : ℚ) : Except TransportError RMResult :=
  match repoFetch with
  | Except.error e => Except.error e
  | Except.ok repoData =>
    match issuesFetch with
    | Except.error e => Except.error e
    | Except.ok issuesData =>
        Except.ok { score := rmScore repoData issuesData
                    latency := toFixed2 (t1 - t0) }

/-- Modelled from the spec: the repository source contains no
ScoreAggregator implementation (src/json.ts only initializes every metric
slot of the output record to null, and no source file computes NetScore),
so the aggregation policy of section 4.5 is taken at its word: NetScore is
the weighted sum of the present metric scores divided by the sum of the
weights of the present metrics (weights renormalized over present
metrics), and it is absent when no metric is present. -/
def netScore (metrics : List (Option ℚ)) (weights : List ℚ) : Option ℚ :=
  let present := (metrics.zip weights).filterMap (fun p => p.1.map (fun s => (s, p.2)))
  if present.isEmpty then none
  else some ((present.map (fun p => p.1 * p.2)).sum / (present.map (fun p => p.2)).sum)

/-- The closed_at strings of the worked ResponsiveMaintainer example. -/
def ts2020 : String := "2020"

/-- The closed_at strings of the worked ResponsiveMaintainer example. -/
def ts2021 : String := "2021"

/-- The issues list of the worked ResponsiveMaintainer example: one open
issue and two closed ones. -/
def issuesC4 : List Issue := [⟨none⟩, ⟨some ts2020⟩, ⟨some ts2021⟩]

/-- The repository metadata of the worked ResponsiveMaintainer example. -/
def repoC4 : RepoData := ⟨some 10⟩


/-- Unfolding lemma: finite-by-finite JSNum division with a nonzero
divisor is exact rational division. -/
lemma JSNum.div_val (a b : ℚ) (hb : b ≠ 0) :
    (JSNum.val a).div (JSNum.val b) = JSNum.val (a / b) := by
  simp [JSNum.div, hb]

/-- Unfolding lemma: finite JSNum subtraction is exact rational
subtraction. -/
lemma JSNum.sub_val (a b : ℚ) :
    (JSNum.val a).sub (JSNum.val b) = JSNum.val (a - b) := by
  simp [JSNum.sub, JSNum.neg, JSNum.add, sub_eq_add_neg]

/-- The final rounding pipeline of getBusFactor applied to a finite value
computes round1. -/
lemma roundTenth_val (q : ℚ) :
    ((((JSNum.val q).mul (JSNum.val 10)).round).div (JSNum.val 10))
      = JSNum.val (round1 q) := by
  show ((JSNum.val ((⌊q * 10 + 1/2⌋ : ℤ) : ℚ)).div (JSNum.val 10)) = JSNum.val (round1 q)
  rw [JSNum.div_val _ _ (by norm_num)]
  rfl

/-- The coverage loop index never grows past the fuel bound. -/
lemma busLoopAux_le_add (counts : List JSNum) (total : JSNum) :
    ∀ (fuel : Nat) (cur : JSNum) (i : Nat),
      busLoopAux counts total fuel cur i ≤ i + fuel := by
  intro fuel
  induction fuel with
  | zero =>
      intro cur i
      simp [busLoopAux]
  | succ f ih =>
      intro cur i
      rw [busLoopAux]
      split
      · exact le_trans (ih _ (i + 1)) (by omega)
      · omega

/-- The coverage loop index never decreases. -/
lemma le_busLoopAux (counts : List JSNum) (total : JSNum) :
    ∀ (fuel : Nat) (cur : JSNum) (i : Nat),
      i ≤ busLoopAux counts total fuel cur i := by
  intro fuel
  induction fuel with
  | zero =>
      intro cur i
      simp [busLoopAux]
  | succ f ih =>
      intro cur i
      rw [busLoopAux]
      split
      · exact le_trans (Nat.le_succ i) (ih _ (i + 1))
      · exact le_refl i

/-- The loop guard holds at the start: zero is below the threshold. -/
lemma lt_zero_coverageThreshold :
    JSNum.lt (JSNum.val 0) coverageThreshold = true := by
  simp only [coverageThreshold, JSNum.lt, decide_eq_true_eq]
  norm_num

/-- With at least one remaining index and the accumulator at zero, the
coverage loop takes at least one step. -/
lemma busLoopAux_one_le (counts : List JSNum) (total : JSNum) (m : Nat) :
    1 ≤ busLoopAux counts total (m + 1) (JSNum.val 0) 0 := by
  rw [busLoopAux, lt_zero_coverageThreshold]
  simp only [if_true]
  exact le_busLoopAux counts total m _ 1

/-- Shape lemma for getBusFactor on a nonempty list: the result is the
finite number round1 of 1 - i / n, where n is the list length and the
loop index i lies between 1 and n. -/
lemma getBusFactor_eq_round1 (data : List Contrib) (h : data ≠ []) :
    ∃ i : Nat, 1 ≤ i ∧ i ≤ data.length ∧
      getBusFactor data
        = JSNum.val (round1 (1 - (i : ℚ) / (data.length : ℚ))) := by
  obtain ⟨m, hm⟩ : ∃ m, data.length = m + 1 := by
    have := List.length_pos.mpr h
    exact ⟨data.length - 1, by omega⟩
  refine ⟨busLoopAux (getContributionCounts data)
      (totalCommits (getContributionCounts data) data.length)
      data.length (JSNum.val 0) 0, ?_, ?_, ?_⟩
  · rw [hm]
    exact busLoopAux_one_le _ _ m
  · have := busLoopAux_le_add (getContributionCounts data)
      (totalCommits (getContributionCounts data) data.length)
      data.length (JSNum.val 0) 0
    omega
  · have hn : ((data.length : ℚ)) ≠ 0 := by
      rw [hm]
      push_cast
      positivity
    simp only [getBusFactor]
    rw [JSNum.div_val _ _ hn, JSNum.sub_val, roundTenth_val]

/-- round1 of a nonnegative value is nonnegative. -/
lemma round1_nonneg (q : ℚ) (h0 : 0 ≤ q) : 0 ≤ round1 q := by
  unfold round1
  have h : (0 : ℤ) ≤ ⌊q * 10 + 1/2⌋ := Int.le_floor.mpr (by push_cast; linarith)
  have h2 : (0 : ℚ) ≤ ((⌊q * 10 + 1/2⌋ : ℤ) : ℚ) := by exact_mod_cast h
  linarith

/-- round1 of a value at most one is at most one. -/
lemma round1_le_one (q : ℚ) (h1 : q ≤ 1) : round1 q ≤ 1 := by
  unfold round1
  have h : ⌊q * 10 + 1/2⌋ < 11 := Int.floor_lt.mpr (by push_cast; linarith)
  have h2 : ((⌊q * 10 + 1/2⌋ : ℤ) : ℚ) ≤ 10 := by
    exact_mod_cast Int.lt_add_one_iff.mp h
  linarith

/-- round1 of a value in the unit interval is an integer multiple of one
tenth with the multiplier between 0 and 10. -/
lemma round1_eq_tenths (q : ℚ) (h0 : 0 ≤ q) (h1 : q ≤ 1) :
    ∃ m : Nat, m ≤ 10 ∧ round1 q = (m : ℚ) / 10 := by
  have hge : (0 : ℤ) ≤ ⌊q * 10 + 1/2⌋ := Int.le_floor.mpr (by push_cast; linarith)
  have hlt : ⌊q * 10 + 1/2⌋ < 11 := Int.floor_lt.mpr (by push_cast; linarith)
  refine ⟨(⌊q * 10 + 1/2⌋).toNat, by omega, ?_⟩
  unfold round1
  have h3 : (((⌊q * 10 + 1/2⌋).toNat : ℕ) : ℚ) = ((⌊q * 10 + 1/2⌋ : ℤ) : ℚ) := by
    exact_mod_cast Int.toNat_of_nonneg hge
  rw [h3]

/-- The contribution counts of an all-zero contributor list. -/
lemma getContributionCounts_replicate_zero (n : Nat) :
    getContributionCounts (List.replicate n (Contrib.num (JSNum.val 0)))
      = List.replicate n (JSNum.val 0) := by
  induction n with
  | zero => rfl
  | succ k ih => simp [List.replicate, getContributionCounts, ih]

/-- Indexing into a list of zeros in bounds gives zero. -/
lemma jsIdx_replicate_zero :
    ∀ (n j : Nat), j < n →
      jsIdx (List.replicate n (JSNum.val 0)) j = JSNum.val 0 := by
  intro n
  induction n with
  | zero =>
      intro j h
      omega
  | succ k ih =>
      intro j h
      cases j with
      | zero => rfl
      | succ i => exact ih i (by omega)

/-- Summing any prefix of a list of zeros gives zero. -/
lemma totalCommits_replicate_zero (n : Nat) :
    ∀ k, k ≤ n → totalCommits (List.replicate n (JSNum.val 0)) k = JSNum.val 0 := by
  intro k
  induction k with
  | zero =>
      intro _
      rfl
  | succ j ih =>
      intro hle
      rw [totalCommits, ih (by omega), jsIdx_replicate_zero n j (by omega)]
      show JSNum.val (0 + 0) = JSNum.val 0
      norm_num

/-- Once the accumulator is NaN the loop guard fails, so the loop stops
immediately. -/
lemma busLoopAux_nan (counts : List JSNum) (total : JSNum) (fuel i : Nat) :
    busLoopAux counts total fuel JSNum.nan i = i := by
  cases fuel with
  | zero => rfl
  | succ f =>
      rw [busLoopAux]
      simp [JSNum.lt]

/-- Zero divided by zero is NaN in the JavaScript model. -/
lemma JSNum.zero_div_zero : (JSNum.val 0).div (JSNum.val 0) = JSNum.nan := by
  simp [JSNum.div]

/-- getBusFactor on an all-zero list of n contributors: the 0/0 division
of the first loop iteration turns the accumulator into NaN, the loop
stops with i = 1, and the result is 1 - 1/n rounded to one decimal. -/
lemma getBusFactor_replicate_zero (n : Nat) (h : 1 ≤ n) :
    getBusFactor (List.replicate n (Contrib.num (JSNum.val 0)))
      = JSNum.val (round1 (1 - 1 / (n : ℚ))) := by
  obtain ⟨m, rfl⟩ : ∃ m, n = m + 1 := ⟨n - 1, by omega⟩
  simp only [getBusFactor, List.length_replicate, getContributionCounts_replicate_zero]
  rw [totalCommits_replicate_zero (m + 1) (m + 1) le_rfl]
  rw [busLoopAux, lt_zero_coverageThreshold]
  simp only [if_true]
  rw [jsIdx_replicate_zero (m + 1) 0 (by omega), JSNum.zero_div_zero]
  rw [show (JSNum.val 0).add JSNum.nan = JSNum.nan from rfl]
  rw [busLoopAux_nan]
  have hn : (((m + 1 : Nat) : ℚ)) ≠ 0 := by
    push_cast
    positivity
  rw [JSNum.div_val _ _ hn, JSNum.sub_val, roundTenth_val]
  rfl

/-- The guarded quotient is never negative: both counts are naturals. -/
lemma rmQuotient_nonneg (o c : Nat) : 0 ≤ rmQuotient o c := by
  unfold rmQuotient
  split
  · positivity
  · exact le_refl 0

/-- toFixed2 of a nonnegative value is nonnegative. -/
lemma toFixed2_nonneg (q : ℚ) (h0 : 0 ≤ q) : 0 ≤ toFixed2 q := by
  unfold toFixed2
  have h : (0 : ℤ) ≤ ⌊q * 100 + 1/2⌋ := Int.le_floor.mpr (by push_cast; linarith)
  have h2 : (0 : ℚ) ≤ ((⌊q * 100 + 1/2⌋ : ℤ) : ℚ) := by exact_mod_cast h
  linarith

/-- toFixed2 of a value at most one is at most one. -/
lemma toFixed2_le_one (q : ℚ) (h1 : q ≤ 1) : toFixed2 q ≤ 1 := by
  unfold toFixed2
  have h : ⌊q * 100 + 1/2⌋ < 101 := Int.floor_lt.mpr (by push_cast; linarith)
  have h2 : ((⌊q * 100 + 1/2⌋ : ℤ) : ℚ) ≤ 100 := by
    exact_mod_cast Int.lt_add_one_iff.mp h
  linarith

/-- toFixed2 fixes one. -/
lemma toFixed2_one : toFixed2 1 = 1 := by
  with_unfolding_all decide

/-- The ResponsiveMaintainer score always lies in the unit interval. -/
lemma rmScore_mem_unit (repoData : RepoData) (issues : List Issue) :
    0 ≤ rmScore repoData issues ∧ rmScore repoData issues ≤ 1 := by
  simp only [rmScore]
  have h0 : 0 ≤ rmQuotient (effectiveOpenCount repoData (countIssues issues).1)
      (countIssues issues).2 := rmQuotient_nonneg _ _
  set r := rmQuotient (effectiveOpenCount repoData (countIssues issues).1)
      (countIssues issues).2 with hr
  have hpos : (0 : ℚ) < 1 + r := by linarith
  constructor
  · exact toFixed2_nonneg _ (div_nonneg zero_le_one (le_of_lt hpos))
  · exact toFixed2_le_one _ ((div_le_one hpos).mpr (by linarith))

/-- With no closed issues the guarded quotient is zero and the score is
exactly one. -/
lemma rmScore_closed_zero (repoData : RepoData) (issues : List Issue)
    (h : (countIssues issues).2 = 0) : rmScore repoData issues = 1 := by
  have hq : rmQuotient (effectiveOpenCount repoData (countIssues issues).1) 0 = 0 := by
    unfold rmQuotient
    simp
  simp only [rmScore, h, hq]
  norm_num [toFixed2_one]

/-- Claim C1, counterexample: the contributor lists with counts (95, 5)
and (5, 95) are permutations of each other, yet getBusFactor returns 0.5
on the first and 0.0 on the second, because the source accumulates in
input order without sorting; so the output is not invariant under
permutation of the input list. -/
theorem getBusFactor_perm_counterexample :
    List.Perm [Contrib.num (JSNum.val 95), Contrib.num (JSNum.val 5)]
        [Contrib.num (JSNum.val 5), Contrib.num (JSNum.val 95)] ∧
    getBusFactor [Contrib.num (JSNum.val 95), Contrib.num (JSNum.val 5)]
      ≠ getBusFactor [Contrib.num (JSNum.val 5), Contrib.num (JSNum.val 95)] := by
  constructor
  · exact List.Perm.swap _ _ _
  · with_unfolding_all decide

/-- Claim C1 (amended): getBusFactor performs no sort, so its output is
not a function of the multiset of contribution counts; it is a function
of the ordered sequence of numeric contribution counts together with the
raw array length, and two inputs agreeing on those agree on the score. -/
theorem getBusFactor_depends_on_counts_and_length
    (d1 d2 : List Contrib) (hlen : d1.length = d2.length)
    (hcounts : getContributionCounts d1 = getContributionCounts d2) :
    getBusFactor d1 = getBusFactor d2 := by
  simp only [getBusFactor, hlen, hcounts]

/-- Witness for the amended claim C1 at two concrete lists that agree on
length and on the extracted counts while differing as lists. -/
theorem getBusFactor_depends_on_counts_and_length_witness :
    getBusFactor [Contrib.num (JSNum.val 95), Contrib.other]
      = getBusFactor [Contrib.other, Contrib.num (JSNum.val 95)] :=
  getBusFactor_depends_on_counts_and_length _ _ (by rfl) (by rfl)

/-- Claim C2, counterexample: the empty list yields NaN, not 0.0, and the
all-zero two-contributor list yields 0.5, not 0.0; the 0/0 division the
claim rules out does occur (its NaN stops the coverage loop after one
step). -/
theorem getBusFactor_zero_counterexample :
    getBusFactor [] = JSNum.nan ∧
    getBusFactor [Contrib.num (JSNum.val 0), Contrib.num (JSNum.val 0)]
      = JSNum.val (1/2) ∧
    JSNum.val (1/2) ≠ JSNum.val 0 ∧ JSNum.nan ≠ JSNum.val 0 := by
  refine ⟨?_, ?_, ?_, ?_⟩ <;> with_unfolding_all decide

/-- Claim C2 (amended): there is no zero-total guard; the empty list
yields NaN, and an all-zero list of n ≥ 1 contributors reaches the 0/0
division, whose NaN stops the loop at i = 1, so the result is 1 - 1/n
rounded to one decimal place, which is 0.0 only for n = 1. -/
theorem getBusFactor_all_zero (n : Nat) (h : 1 ≤ n) :
    getBusFactor [] = JSNum.nan ∧
    getBusFactor (List.replicate n (Contrib.num (JSNum.val 0)))
      = JSNum.val (round1 (1 - 1 / (n : ℚ))) :=
  ⟨by with_unfolding_all decide, getBusFactor_replicate_zero n h⟩

/-- Witness for the amended claim C2 at n = 2. -/
theorem getBusFactor_all_zero_witness :
    1 ≤ 2 ∧ (getBusFactor [] = JSNum.nan ∧
      getBusFactor (List.replicate 2 (Contrib.num (JSNum.val 0)))
        = JSNum.val (round1 (1 - 1 / (2 : ℚ)))) :=
  ⟨by norm_num, getBusFactor_all_zero 2 (by norm_num)⟩

/-- Claim C3, counterexample: on the empty contributor list getBusFactor
returns NaN, which is not a finite number in the unit interval (the
0 / num_committers division is 0/0). -/
theorem getBusFactor_empty_counterexample :
    ¬ ∃ q : ℚ, getBusFactor [] = JSNum.val q ∧ 0 ≤ q ∧ q ≤ 1 := by
  rintro ⟨q, hq, -, -⟩
  have h : getBusFactor [] = JSNum.nan := by with_unfolding_all decide
  rw [h] at hq
  exact JSNum.noConfusion hq

/-- Claim C3 (amended): on every nonempty contributor list, including
lists whose elements have missing, non-numeric, NaN or infinite
contributions fields, getBusFactor returns a finite number in [0, 1];
only the empty list escapes, producing NaN. -/
theorem getBusFactor_nonempty_unit_interval (data : List Contrib) (h : data ≠ []) :
    ∃ q : ℚ, getBusFactor data = JSNum.val q ∧ 0 ≤ q ∧ q ≤ 1 := by
  obtain ⟨i, hi1, hin, heq⟩ := getBusFactor_eq_round1 data h
  have hnpos : (0 : ℚ) < (data.length : ℚ) := by
    have := List.length_pos.mpr h
    exact_mod_cast this
  have hdiv0 : (0 : ℚ) ≤ (i : ℚ) / (data.length : ℚ) := by positivity
  have hdiv1 : (i : ℚ) / (data.length : ℚ) ≤ 1 := by
    rw [div_le_one hnpos]
    exact_mod_cast hin
  exact ⟨_, heq, round1_nonneg _ (by linarith), round1_le_one _ (by linarith)⟩

/-- Witness for the amended claim C3 at a list mixing a finite count, a
malformed element and a NaN count. -/
theorem getBusFactor_nonempty_unit_interval_witness :
    ∃ q : ℚ, getBusFactor
        [Contrib.num (JSNum.val 95), Contrib.other, Contrib.num JSNum.nan]
      = JSNum.val q ∧ 0 ≤ q ∧ q ≤ 1 :=
  getBusFactor_nonempty_unit_interval _ (List.cons_ne_nil _ _)

/-- Claim C4: on metadata with open_issues_count = 10 and the issue list
(null, 2020, 2021) the calculator counts one open and two closed issues
locally, the metadata count 10 overrides the local open count, the ratio
is 10/2 = 5, and the score is 1/6 rounded to 0.17; the full calculator
returns that score with the measured latency. -/
theorem responsiveMaintainer_worked_example :
    countIssues issuesC4 = (1, 2) ∧
    effectiveOpenCount repoC4 (countIssues issuesC4).1 = 10 ∧
    rmQuotient 10 2 = 5 ∧
    rmScore repoC4 issuesC4 = 17/100 ∧
    calculateResponsiveMaintainer (Except.ok repoC4) (Except.ok issuesC4) 0 1
      = Except.ok ⟨17/100, 1⟩ := by
  refine ⟨by with_unfolding_all decide, by with_unfolding_all decide,
    by with_unfolding_all decide, by with_unfolding_all decide, ?_⟩
  show Except.ok ⟨rmScore repoC4 issuesC4, toFixed2 (1 - 0)⟩
    = Except.ok (⟨17/100, 1⟩ : RMResult)
  rw [show rmScore repoC4 issuesC4 = 17/100 by with_unfolding_all decide]
  rw [show toFixed2 (1 - 0 : ℚ) = 1 by with_unfolding_all decide]

/-- Claim C5: for every issue list and repository metadata the
ResponsiveMaintainer score lies in [0, 1], and whenever the derived
closed count is zero the guarded quotient is zero and the score is
exactly one, the division never being evaluated with a zero divisor. -/
theorem responsiveMaintainer_score_bounds (repoData : RepoData) (issues : List Issue) :
    (0 ≤ rmScore repoData issues ∧ rmScore repoData issues ≤ 1) ∧
    ((countIssues issues).2 = 0 → rmScore repoData issues = 1) :=
  ⟨rmScore_mem_unit repoData issues, rmScore_closed_zero repoData issues⟩

/-- Witness for claim C5 at concrete inputs, discharging the
closed-count-zero hypothesis on the empty issue list. -/
theorem responsiveMaintainer_score_bounds_witness :
    ((0 ≤ rmScore repoC4 [] ∧ rmScore repoC4 [] ≤ 1) ∧
      ((countIssues ([] : List Issue)).2 = 0 → rmScore repoC4 [] = 1)) ∧
    rmScore repoC4 [] = 1 :=
  ⟨responsiveMaintainer_score_bounds repoC4 [],
    (responsiveMaintainer_score_bounds repoC4 []).2 rfl⟩

/-- Claim C6, counterexample: when the repository fetch fails with a
transport error, calculateResponsiveMaintainer does not recover: it has
no try/catch around Promise.all, so the rejection propagates to the
caller and no result (in particular no recorded latency) is produced. -/
theorem responsiveMaintainer_transport_counterexample :
    calculateResponsiveMaintainer (Except.error TransportError.networkFailure)
        (Except.ok []) 0 1
      = Except.error TransportError.networkFailure ∧
    ∀ r : RMResult,
      calculateResponsiveMaintainer (Except.error TransportError.networkFailure)
        (Except.ok []) 0 1 ≠ Except.ok r := by
  constructor
  · rfl
  · intro r hr
    exact Except.noConfusion hr

/-- Claim C6 (amended): a transport failure of either fetch is rethrown
by fetchJsonFromApi and passes the calculator boundary unchanged: the
calculator returns the error itself, not a result with an absent score
and a recorded latency. -/
theorem responsiveMaintainer_propagates_transport_error
    (e : TransportError) (issuesFetch : Except TransportError (List Issue))
    (repoData : RepoData) (t0 t1 : ℚ) :
    calculateResponsiveMaintainer (Except.error e) issuesFetch t0 t1
      = Except.error e ∧
    calculateResponsiveMaintainer (Except.ok repoData) (Except.error e) t0 t1
      = Except.error e :=
  ⟨rfl, rfl⟩

/-- Claim C7, counterexample: a malformed element is skipped by
getContributionCounts, yet it does contribute to the computed score:
appending it leaves the counts unchanged but raises num_committers and
derails the total into NaN, moving the score from 0.5 to 0.7. -/
theorem malformed_element_changes_score :
    getContributionCounts
        [Contrib.num (JSNum.val 95), Contrib.num (JSNum.val 5), Contrib.other]
      = getContributionCounts [Contrib.num (JSNum.val 95), Contrib.num (JSNum.val 5)] ∧
    getBusFactor [Contrib.num (JSNum.val 95), Contrib.num (JSNum.val 5), Contrib.other]
      ≠ getBusFactor [Contrib.num (JSNum.val 95), Contrib.num (JSNum.val 5)] := by
  constructor <;> with_unfolding_all decide

/-- Claim C7 (amended): getContributionCounts returns, in input order,
exactly the contributions values of the elements whose contributions
field is a number, skipping the rest without raising; but the skipped
elements still count toward num_committers inside getBusFactor and can
change the score. -/
theorem getContributionCounts_keeps_numeric (data : List Contrib) :
    getContributionCounts data = data.filterMap (fun c =>
      match c with
      | Contrib.num x => some x
      | Contrib.other => none) := by
  induction data with
  | nil => rfl
  | cons c rest ih =>
      cases c <;> simp [getContributionCounts, List.filterMap_cons, ih]

/-- Claim C8: NetScore is the weighted sum over the present metrics with
the weights renormalized over those metrics: with scores 0.8 and 0.4
present under equal weights the composite is 0.6, and prepending an
absent metric with its weight never changes the composite (absent metrics
are excluded from numerator and denominator alike). -/
theorem netScore_renormalizes_over_present :
    netScore [some (8/10), some (4/10), none, none, none] (List.replicate 5 (1/5))
      = some (6/10) ∧
    ∀ (metrics : List (Option ℚ)) (w : ℚ) (weights : List ℚ),
      netScore (none :: metrics) (w :: weights) = netScore metrics weights := by
  constructor
  · with_unfolding_all decide
  · intro ms w ws
    rfl

/-- Claim C9: on the singleton contributor list with 100 contributions the
single contributor covers the threshold, so i = 1 = n and the score is
exactly zero. -/
theorem getBusFactor_single_contributor :
    getBusFactor [Contrib.num (JSNum.val 100)] = JSNum.val 0 := by
  with_unfolding_all decide

/-- Claim C10: on a nonempty list of numeric contributions with positive
total, getBusFactor returns the value of rounding 1 - i/n to one decimal
place for a loop index 1 ≤ i ≤ n, a value that lies in [0, 1] and is an
integer multiple of one tenth. -/
theorem getBusFactor_rounding_form (qs : List ℚ) (hne : qs ≠ []) (_hsum : 0 < qs.sum) :
    ∃ i : Nat, 1 ≤ i ∧ i ≤ qs.length ∧
      getBusFactor (qs.map (fun q => Contrib.num (JSNum.val q)))
        = JSNum.val (round1 (1 - (i : ℚ) / (qs.length : ℚ))) ∧
      (0 ≤ round1 (1 - (i : ℚ) / (qs.length : ℚ)) ∧
        round1 (1 - (i : ℚ) / (qs.length : ℚ)) ≤ 1) ∧
      ∃ m : Nat, m ≤ 10 ∧
        round1 (1 - (i : ℚ) / (qs.length : ℚ)) = (m : ℚ) / 10 := by
  have hmapne : qs.map (fun q => Contrib.num (JSNum.val q)) ≠ [] := by
    simpa using hne
  obtain ⟨i, hi1, hin, heq⟩ := getBusFactor_eq_round1 _ hmapne
  rw [List.length_map] at hin heq
  have hnpos : (0 : ℚ) < (qs.length : ℚ) := by
    have : 0 < qs.length := List.length_pos.mpr hne
    exact_mod_cast this
  have hdiv0 : (0 : ℚ) ≤ (i : ℚ) / (qs.length : ℚ) := by positivity
  have hdiv1 : (i : ℚ) / (qs.length : ℚ) ≤ 1 := by
    rw [div_le_one hnpos]
    exact_mod_cast hin
  exact ⟨i, hi1, hin, heq,
    ⟨round1_nonneg _ (by linarith), round1_le_one _ (by linarith)⟩,
    round1_eq_tenths _ (by linarith) (by linarith)⟩

/-- Witness for claim C10 at the singleton list with three
contributions. -/
theorem getBusFactor_rounding_form_witness :
    ∃ i : Nat, 1 ≤ i ∧ i ≤ [(3 : ℚ)].length ∧
      getBusFactor ([(3 : ℚ)].map (fun q => Contrib.num (JSNum.val q)))
        = JSNum.val (round1 (1 - (i : ℚ) / (([(3 : ℚ)].length : Nat) : ℚ))) ∧
      (0 ≤ round1 (1 - (i : ℚ) / (([(3 : ℚ)].length : Nat) : ℚ)) ∧
        round1 (1 - (i : ℚ) / (([(3 : ℚ)].length : Nat) : ℚ)) ≤ 1) ∧
      ∃ m : Nat, m ≤ 10 ∧
        round1 (1 - (i : ℚ) / (([(3 : ℚ)].length : Nat) : ℚ)) = (m : ℚ) / 10 :=
  getBusFactor_rounding_form [3] (List.cons_ne_nil _ _) (by norm_num)
